import Mathlib

/-!
Shallow embedding of the response-event aggregation logic of
`prompting/dendrite.py` and of the message/timing bookkeeping of
`prompting/llms/vllm_llm.py`.

Python floats are modelled as rationals (`ℚ`), `None`-able floats as
`Option ℚ`, Python lists as Lean lists.  The in-place mutation of
`synapse.dendrite.status_code` performed by `DendriteResponseEvent.__init__`
is modelled by returning the post-construction list of synapses alongside
the constructed event.
-/

/-- `ct.TerminalInfo`: transport-level outcome of one query
(`process_time`, `status_code`, `status_message`). `process_time` may be
absent (`None` in Python). -/
structure TerminalInfo where
  process_time : Option ℚ
  status_code : Int
  status_message : String
deriving DecidableEq, Repr

/-- `ct.Synapse` as used by the aggregator: a completion string plus the
dendrite terminal metadata. -/
structure Synapse where
  completion : String
  dendrite : TerminalInfo
deriving DecidableEq, Repr

/-- Python truthiness of an optional float: `None` and `0.0` are falsy,
everything else truthy (models `if (synapse.dendrite.process_time)`). -/
def pyTruthy (o : Option ℚ) : Bool :=
  match o with
  | none => false
  | some t => t ≠ 0

/-- Python `x or y` on an optional float against a float: the first operand
when it is truthy, otherwise the second (models
`synapse.dendrite.process_time or timeout`). -/
def pyOr (pt : Option ℚ) (d : ℚ) : ℚ :=
  match pt with
  | none => d
  | some t => if t = 0 then d else t

/-- The in-place reclassification performed inside the first loop of
`DendriteResponseEvent.__init__`:
`if len(synapse.completion) == 0 and synapse.dendrite.status_code == 200:
synapse.dendrite.status_code = 204`. -/
def classifySynapse (s : Synapse) : Synapse :=
  if s.completion.length = 0 ∧ s.dendrite.status_code = 200 then
    { s with dendrite := { s.dendrite with status_code := 204 } }
  else s

/-- The timing appended by the first loop of `DendriteResponseEvent.__init__`
for one (already reclassified) synapse: `process_time` when it is truthy and
the status code is 200 or 204, else the round `timeout` when the status code
is 408, else `0`. -/
def firstPassTiming (timeout : ℚ) (s : Synapse) : ℚ :=
  if pyTruthy s.dendrite.process_time ∧
      (s.dendrite.status_code = 200 ∨ s.dendrite.status_code = 204) then
    s.dendrite.process_time.getD 0
  else if s.dendrite.status_code = 408 then
    timeout
  else
    0

/-- The timings list built by the first loop (applied to the synapses after
their in-place reclassification). This list is dead code in the source: it
is overwritten by the second pass before the constructor returns. -/
def firstPassTimings (responses : List Synapse) (timeout : ℚ) : List ℚ :=
  (responses.map classifySynapse).map (firstPassTiming timeout)

/-- The status-code list built by the first loop (read after the in-place
reclassification of each synapse). Also overwritten by the second pass,
which however re-reads the same mutated objects. -/
def firstPassStatusCodes (responses : List Synapse) : List Int :=
  (responses.map classifySynapse).map (fun s => s.dendrite.status_code)

/-- The aggregate event: parallel sequences of uids, completions, timings,
status messages and status codes (`DendriteResponseEvent`). -/
structure DendriteResponseEvent where
  uids : List Int
  completions : List String
  timings : List ℚ
  status_messages : List String
  status_codes : List Int
deriving DecidableEq, Repr

/-- `DendriteResponseEvent.__init__`: the first loop appends to the four
lists while mutating each synapse's status code in place; the constructor
then unconditionally overwrites `completions`, `timings`, `status_messages`
and `status_codes` with list comprehensions over the (mutated) responses,
using `process_time or timeout` for every timing. The function returns the
constructed event together with the post-mutation list of responses. -/
def mkDendriteResponseEvent (responses : List Synapse) (uids : List Int)
    (timeout : ℚ) : DendriteResponseEvent × List Synapse :=
  let mutated := responses.map classifySynapse
  ({ uids := uids
     completions := mutated.map (fun s => s.completion)
     timings := mutated.map (fun s => pyOr s.dendrite.process_time timeout)
     status_messages := mutated.map (fun s => s.dendrite.status_message)
     status_codes := mutated.map (fun s => s.dendrite.status_code) },
   mutated)

/-- State of `vLLM_LLM` as relevant to its message/timing bookkeeping:
`self.messages` as (content, role) pairs and `self.times` as rationals. -/
structure VLLMState where
  messages : List (String × String)
  times : List ℚ
deriving DecidableEq, Repr

/-- `vLLM_LLM.__init__`: `self.messages = [{"content": system_prompt,
"role": "system"}]` and `self.times = [0]`. -/
def vLLMInit (system_prompt : String) : VLLMState :=
  { messages := [(system_prompt, "system")], times := [0] }

/-- `vLLM_LLM.query`: appends the incoming message with its role and the
(cleaned) pipeline response with role "assistant" to `self.messages`, and
`[0, time.time() - t0]` to `self.times`. The response produced by
`self.forward`/`clean_response` and the elapsed wall-clock time are external
inputs, passed here as parameters. -/
def vLLMQuery (st : VLLMState) (message role response : String)
    (elapsed : ℚ) : VLLMState :=
  let messages := st.messages ++ [(message, role)]
  { messages := messages ++ [(response, "assistant")]
    times := st.times ++ [0, elapsed] }

/-- Run a sequence of `query` calls, each given as
(message, role, response, elapsed). -/
def vLLMRun (system_prompt : String)
    (calls : List (String × String × String × ℚ)) : VLLMState :=
  calls.foldl (fun st c => vLLMQuery st c.1 c.2.1 c.2.2.1 c.2.2.2)
    (vLLMInit system_prompt)

theorem classifySynapse_completion (s : Synapse) :
    (classifySynapse s).completion = s.completion := by
  unfold classifySynapse
  split <;> rfl

theorem classifySynapse_process_time (s : Synapse) :
    (classifySynapse s).dendrite.process_time = s.dendrite.process_time := by
  unfold classifySynapse
  split <;> rfl

theorem classifySynapse_status_message (s : Synapse) :
    (classifySynapse s).dendrite.status_message = s.dendrite.status_message := by
  unfold classifySynapse
  split <;> rfl

theorem string_length_eq_zero {s : String} : s.length = 0 ↔ s = "" := by
  constructor
  · intro h
    cases s with
    | mk data =>
      cases data with
      | nil => rfl
      | cons c cs => simp [String.length] at h
  · intro h
    subst h
    rfl

theorem classifySynapse_status_code (s : Synapse) :
    (classifySynapse s).dendrite.status_code =
      if s.completion = "" ∧ s.dendrite.status_code = 200 then 204
      else s.dendrite.status_code := by
  unfold classifySynapse
  by_cases hl : s.completion.length = 0 ∧ s.dendrite.status_code = 200
  · rw [if_pos hl, if_pos ⟨string_length_eq_zero.mp hl.1, hl.2⟩]
  · rw [if_neg hl, if_neg]
    intro hcontra
    exact hl ⟨string_length_eq_zero.mpr hcontra.1, hcontra.2⟩

theorem classifySynapse_idem (s : Synapse) :
    classifySynapse (classifySynapse s) = classifySynapse s := by
  by_cases h : s.completion.length = 0 ∧ s.dendrite.status_code = 200
  · simp [classifySynapse, h]
  · simp only [classifySynapse, if_neg h]

theorem mk_timings_getElem (responses : List Synapse) (uids : List Int)
    (timeout : ℚ) (i : ℕ) (s : Synapse) (hi : responses[i]? = some s) :
    (mkDendriteResponseEvent responses uids timeout).1.timings[i]?
      = some (pyOr s.dendrite.process_time timeout) := by
  simp [mkDendriteResponseEvent, List.getElem?_map, hi, classifySynapse_process_time]

theorem mk_status_messages_getElem (responses : List Synapse) (uids : List Int)
    (timeout : ℚ) (i : ℕ) (s : Synapse) (hi : responses[i]? = some s) :
    (mkDendriteResponseEvent responses uids timeout).1.status_messages[i]?
      = some s.dendrite.status_message := by
  simp [mkDendriteResponseEvent, List.getElem?_map, hi, classifySynapse_status_message]

theorem mk_status_codes_getElem (responses : List Synapse) (uids : List Int)
    (timeout : ℚ) (i : ℕ) (s : Synapse) (hi : responses[i]? = some s) :
    (mkDendriteResponseEvent responses uids timeout).1.status_codes[i]?
      = some (if s.completion = "" ∧ s.dendrite.status_code = 200 then 204
              else s.dendrite.status_code) := by
  simp [mkDendriteResponseEvent, List.getElem?_map, hi, classifySynapse_status_code]

theorem mk_completions_getElem (responses : List Synapse) (uids : List Int)
    (timeout : ℚ) (i : ℕ) (s : Synapse) (hi : responses[i]? = some s) :
    (mkDendriteResponseEvent responses uids timeout).1.completions[i]?
      = some s.completion := by
  simp [mkDendriteResponseEvent, List.getElem?_map, hi, classifySynapse_completion]

theorem mk_responses_getElem (responses : List Synapse) (uids : List Int)
    (timeout : ℚ) (i : ℕ) (s : Synapse) (hi : responses[i]? = some s) :
    (mkDendriteResponseEvent responses uids timeout).2[i]?
      = some (classifySynapse s) := by
  simp [mkDendriteResponseEvent, List.getElem?_map, hi]

theorem firstPassTimings_getElem (responses : List Synapse) (timeout : ℚ)
    (i : ℕ) (s : Synapse) (hi : responses[i]? = some s) :
    (firstPassTimings responses timeout)[i]?
      = some (firstPassTiming timeout (classifySynapse s)) := by
  simp [firstPassTimings, List.getElem?_map, hi]

/-- Claim C1: every response whose completion is the empty string and whose
input status code is 200 has aggregated status code 204 (not 200) in the
constructed event's `status_codes` sequence. The in-place reclassification
persists on the synapse objects, so the overwriting second pass re-reads
204. -/
theorem aggregated_empty_200_is_204 (responses : List Synapse)
    (uids : List Int) (timeout : ℚ) (i : ℕ) (s : Synapse)
    (hi : responses[i]? = some s) (hc : s.completion = "")
    (h200 : s.dendrite.status_code = 200) :
    (mkDendriteResponseEvent responses uids timeout).1.status_codes[i]?
      = some 204 := by
  rw [mk_status_codes_getElem responses uids timeout i s hi,
    if_pos ⟨hc, h200⟩]

/-- Concrete instance of `aggregated_empty_200_is_204`. -/
theorem aggregated_empty_200_is_204_witness :
    ([⟨"", ⟨some 1, 200, "OK"⟩⟩] : List Synapse)[0]?
        = some ⟨"", ⟨some 1, 200, "OK"⟩⟩ ∧
    (⟨"", ⟨some 1, 200, "OK"⟩⟩ : Synapse).completion = "" ∧
    (⟨"", ⟨some 1, 200, "OK"⟩⟩ : Synapse).dendrite.status_code = 200 ∧
    (mkDendriteResponseEvent [⟨"", ⟨some 1, 200, "OK"⟩⟩] [5] 1).1.status_codes[0]?
      = some 204 :=
  ⟨rfl, rfl, rfl,
    aggregated_empty_200_is_204 [⟨"", ⟨some 1, 200, "OK"⟩⟩] [5] 1 0
      ⟨"", ⟨some 1, 200, "OK"⟩⟩ rfl rfl rfl⟩

/-- Claim C2 as stated is false: a response with status code 408 and a
truthy `process_time` of 5 under round timeout 2 gets aggregated timing
5 (its `process_time`), not the timeout 2, because the overwriting second
pass uses `process_time or timeout`. -/
theorem timing_408_counterexample :
    (mkDendriteResponseEvent [⟨"x", ⟨some 5, 408, "Timeout"⟩⟩] [0] 2).1.timings
      = [5] ∧ ((5 : ℚ)) ≠ 2 := by
  constructor
  · rfl
  · decide

/-- Claim C2 amended: for a response with status code 408, the first
(dead) pass records the round timeout as its timing, but the final timings
entry is `process_time or timeout`: the timeout is used only when
`process_time` is absent or zero. -/
theorem timing_408_amended (responses : List Synapse) (uids : List Int)
    (timeout : ℚ) (i : ℕ) (s : Synapse) (hi : responses[i]? = some s)
    (h408 : s.dendrite.status_code = 408) :
    (firstPassTimings responses timeout)[i]? = some timeout ∧
    (mkDendriteResponseEvent responses uids timeout).1.timings[i]?
      = some (pyOr s.dendrite.process_time timeout) := by
  have hcode : (classifySynapse s).dendrite.status_code = 408 := by
    rw [classifySynapse_status_code, if_neg, h408]
    rintro ⟨-, h⟩
    rw [h408] at h
    exact absurd h (by decide)
  refine ⟨?_, mk_timings_getElem responses uids timeout i s hi⟩
  rw [firstPassTimings_getElem responses timeout i s hi]
  simp [firstPassTiming, hcode]

/-- Concrete instance of `timing_408_amended`. -/
theorem timing_408_amended_witness :
    ([⟨"x", ⟨some 5, 408, "Timeout"⟩⟩] : List Synapse)[0]?
        = some ⟨"x", ⟨some 5, 408, "Timeout"⟩⟩ ∧
    (⟨"x", ⟨some 5, 408, "Timeout"⟩⟩ : Synapse).dendrite.status_code = 408 ∧
    ((firstPassTimings [⟨"x", ⟨some 5, 408, "Timeout"⟩⟩] 2)[0]? = some 2 ∧
      (mkDendriteResponseEvent [⟨"x", ⟨some 5, 408, "Timeout"⟩⟩] [0] 2).1.timings[0]?
        = some (pyOr (some 5) 2)) :=
  ⟨rfl, rfl,
    timing_408_amended [⟨"x", ⟨some 5, 408, "Timeout"⟩⟩] [0] 2 0
      ⟨"x", ⟨some 5, 408, "Timeout"⟩⟩ rfl rfl⟩

/-- Claim C3 as stated is false: a response with status code 500 (outside
the set consisting of 200, 204 and 408) and absent `process_time` under
round timeout 1 gets aggregated timing 1 (`process_time or timeout`), not
0, because the overwriting second pass discards the 0 recorded by the
first pass. -/
theorem timing_other_status_counterexample :
    (mkDendriteResponseEvent [⟨"x", ⟨none, 500, "error"⟩⟩] [0] 1).1.timings
      = [1] ∧ ((1 : ℚ)) ≠ 0 := by
  constructor
  · rfl
  · decide

/-- Claim C3 amended: for a response whose status code after the 204
reclassification lies outside the set of 200, 204 and 408, the first (dead)
pass records timing 0, but the final timings entry is
`process_time or timeout`. -/
theorem timing_other_status_amended (responses : List Synapse)
    (uids : List Int) (timeout : ℚ) (i : ℕ) (s : Synapse)
    (hi : responses[i]? = some s)
    (h200 : (classifySynapse s).dendrite.status_code ≠ 200)
    (h204 : (classifySynapse s).dendrite.status_code ≠ 204)
    (h408 : (classifySynapse s).dendrite.status_code ≠ 408) :
    (firstPassTimings responses timeout)[i]? = some 0 ∧
    (mkDendriteResponseEvent responses uids timeout).1.timings[i]?
      = some (pyOr s.dendrite.process_time timeout) := by
  refine ⟨?_, mk_timings_getElem responses uids timeout i s hi⟩
  rw [firstPassTimings_getElem responses timeout i s hi]
  rw [firstPassTiming, if_neg, if_neg h408]
  rintro ⟨-, h | h⟩
  · exact h200 h
  · exact h204 h

/-- Concrete instance of `timing_other_status_amended`. -/
theorem timing_other_status_amended_witness :
    ([⟨"x", ⟨none, 500, "error"⟩⟩] : List Synapse)[0]?
        = some ⟨"x", ⟨none, 500, "error"⟩⟩ ∧
    (classifySynapse ⟨"x", ⟨none, 500, "error"⟩⟩).dendrite.status_code ≠ 200 ∧
    (classifySynapse ⟨"x", ⟨none, 500, "error"⟩⟩).dendrite.status_code ≠ 204 ∧
    (classifySynapse ⟨"x", ⟨none, 500, "error"⟩⟩).dendrite.status_code ≠ 408 ∧
    ((firstPassTimings [⟨"x", ⟨none, 500, "error"⟩⟩] 1)[0]? = some 0 ∧
      (mkDendriteResponseEvent [⟨"x", ⟨none, 500, "error"⟩⟩] [0] 1).1.timings[0]?
        = some (pyOr none 1)) :=
  ⟨rfl, by decide, by decide, by decide,
    timing_other_status_amended [⟨"x", ⟨none, 500, "error"⟩⟩] [0] 1 0
      ⟨"x", ⟨none, 500, "error"⟩⟩ rfl (by decide) (by decide) (by decide)⟩

/-- Claim C4: every response with status code 200 and a positive (hence
truthy) `process_time` has aggregated timing equal to that `process_time`
(`process_time or timeout` picks the truthy `process_time`). -/
theorem timing_200_positive_process_time (responses : List Synapse)
    (uids : List Int) (timeout : ℚ) (i : ℕ) (s : Synapse) (t : ℚ)
    (hi : responses[i]? = some s) (h200 : s.dendrite.status_code = 200)
    (hpt : s.dendrite.process_time = some t) (hpos : 0 < t) :
    (mkDendriteResponseEvent responses uids timeout).1.timings[i]?
      = some t := by
  rw [mk_timings_getElem responses uids timeout i s hi, hpt, pyOr,
    if_neg (ne_of_gt hpos)]

/-- Concrete instance of `timing_200_positive_process_time`. -/
theorem timing_200_positive_process_time_witness :
    ([⟨"hello", ⟨some 3, 200, "OK"⟩⟩] : List Synapse)[0]?
        = some ⟨"hello", ⟨some 3, 200, "OK"⟩⟩ ∧
    (⟨"hello", ⟨some 3, 200, "OK"⟩⟩ : Synapse).dendrite.status_code = 200 ∧
    (⟨"hello", ⟨some 3, 200, "OK"⟩⟩ : Synapse).dendrite.process_time = some 3 ∧
    (0 : ℚ) < 3 ∧
    (mkDendriteResponseEvent [⟨"hello", ⟨some 3, 200, "OK"⟩⟩] [0] 7).1.timings[0]?
      = some 3 :=
  ⟨rfl, rfl, rfl, by norm_num,
    timing_200_positive_process_time [⟨"hello", ⟨some 3, 200, "OK"⟩⟩] [0] 7 0
      ⟨"hello", ⟨some 3, 200, "OK"⟩⟩ 3 rfl rfl rfl (by norm_num)⟩

/-- Claim C5 as stated is false: a response that enters with status code
200 and empty completion ends with final status code 204, not the original
200, because the first pass mutates the synapse in place and the second
pass re-reads the mutated object. -/
theorem second_pass_original_code_counterexample :
    (mkDendriteResponseEvent [⟨"", ⟨some 1, 200, "OK"⟩⟩] [0] 1).1.status_codes
      = [204] ∧ ((204 : Int)) ≠ 200 := by
  constructor
  · rfl
  · decide

/-- Claim C5 amended: in the overwriting second pass, every final timings
entry equals `process_time or timeout` and every final status-messages
entry equals the status message supplied on input, but every final
status-codes entry equals the post-reclassification status code: a
response entering with status code 200 and empty completion ends with
204, not 200. -/
theorem second_pass_amended (responses : List Synapse) (uids : List Int)
    (timeout : ℚ) (i : ℕ) (s : Synapse) (hi : responses[i]? = some s) :
    (mkDendriteResponseEvent responses uids timeout).1.timings[i]?
        = some (pyOr s.dendrite.process_time timeout) ∧
    (mkDendriteResponseEvent responses uids timeout).1.status_messages[i]?
        = some s.dendrite.status_message ∧
    (mkDendriteResponseEvent responses uids timeout).1.status_codes[i]?
        = some (if s.completion = "" ∧ s.dendrite.status_code = 200 then 204
                else s.dendrite.status_code) :=
  ⟨mk_timings_getElem responses uids timeout i s hi,
    mk_status_messages_getElem responses uids timeout i s hi,
    mk_status_codes_getElem responses uids timeout i s hi⟩

/-- Concrete instance of `second_pass_amended`. -/
theorem second_pass_amended_witness :
    ([⟨"", ⟨some 1, 200, "OK"⟩⟩] : List Synapse)[0]?
        = some ⟨"", ⟨some 1, 200, "OK"⟩⟩ ∧
    ((mkDendriteResponseEvent [⟨"", ⟨some 1, 200, "OK"⟩⟩] [0] 7).1.timings[0]?
        = some (pyOr (some 1) 7) ∧
      (mkDendriteResponseEvent [⟨"", ⟨some 1, 200, "OK"⟩⟩] [0] 7).1.status_messages[0]?
        = some "OK" ∧
      (mkDendriteResponseEvent [⟨"", ⟨some 1, 200, "OK"⟩⟩] [0] 7).1.status_codes[0]?
        = some (if ("" : String) = "" ∧ (200 : Int) = 200 then 204 else 200)) :=
  ⟨rfl,
    second_pass_amended [⟨"", ⟨some 1, 200, "OK"⟩⟩] [0] 7 0
      ⟨"", ⟨some 1, 200, "OK"⟩⟩ rfl⟩

/-- Claim C6 as stated is false: the uids sequence is passed through
verbatim without any length validation, so with one response and two uids
the constructed event has `uids` of length 2 while the other four
sequences have length 1. -/
theorem lengths_counterexample :
    (mkDendriteResponseEvent [⟨"x", ⟨some 1, 200, "OK"⟩⟩] [0, 1] 1).1.uids.length = 2 ∧
    (mkDendriteResponseEvent [⟨"x", ⟨some 1, 200, "OK"⟩⟩] [0, 1] 1).1.completions.length = 1 ∧
    (2 : ℕ) ≠ 1 := by
  refine ⟨rfl, rfl, ?_⟩
  decide

/-- Claim C6 amended: whenever the supplied uids sequence has the same
length as the batch of responses, all five sequences of the constructed
event have length equal to the number of responses; index i refers to the
same input response in the four constructed sequences, and the uids
sequence is passed through verbatim. -/
theorem lengths_aligned (responses : List Synapse) (uids : List Int)
    (timeout : ℚ) (h : uids.length = responses.length) :
    (mkDendriteResponseEvent responses uids timeout).1.completions.length
        = responses.length ∧
    (mkDendriteResponseEvent responses uids timeout).1.timings.length
        = responses.length ∧
    (mkDendriteResponseEvent responses uids timeout).1.status_messages.length
        = responses.length ∧
    (mkDendriteResponseEvent responses uids timeout).1.status_codes.length
        = responses.length ∧
    (mkDendriteResponseEvent responses uids timeout).1.uids.length
        = responses.length := by
  refine ⟨?_, ?_, ?_, ?_, ?_⟩ <;>
    simp [mkDendriteResponseEvent, h]

/-- Concrete instance of `lengths_aligned`. -/
theorem lengths_aligned_witness :
    ([(3 : Int)] : List Int).length = ([⟨"x", ⟨some 1, 200, "OK"⟩⟩] : List Synapse).length ∧
    ((mkDendriteResponseEvent [⟨"x", ⟨some 1, 200, "OK"⟩⟩] [3] 1).1.completions.length = 1 ∧
      (mkDendriteResponseEvent [⟨"x", ⟨some 1, 200, "OK"⟩⟩] [3] 1).1.timings.length = 1 ∧
      (mkDendriteResponseEvent [⟨"x", ⟨some 1, 200, "OK"⟩⟩] [3] 1).1.status_messages.length = 1 ∧
      (mkDendriteResponseEvent [⟨"x", ⟨some 1, 200, "OK"⟩⟩] [3] 1).1.status_codes.length = 1 ∧
      (mkDendriteResponseEvent [⟨"x", ⟨some 1, 200, "OK"⟩⟩] [3] 1).1.uids.length = 1) :=
  ⟨rfl, lengths_aligned [⟨"x", ⟨some 1, 200, "OK"⟩⟩] [3] 1 rfl⟩

/-- Claim C7 as stated is false: construction is not side-effect free. A
response with empty completion and status code 200 has its status code
mutated to 204 in place, so the input batch after construction differs
from the batch before it. -/
theorem purity_counterexample :
    (mkDendriteResponseEvent [⟨"", ⟨some 1, 200, "OK"⟩⟩] [0] 1).2
      ≠ [⟨"", ⟨some 1, 200, "OK"⟩⟩] := by
  decide

/-- Claim C7 amended: construction leaves every response's completion,
`process_time` and status message unchanged, and leaves the status code
unchanged except for responses with empty completion and status code 200,
whose status code is set to 204 in place. -/
theorem aggregation_mutation_amended (responses : List Synapse)
    (uids : List Int) (timeout : ℚ) (i : ℕ) (s : Synapse)
    (hi : responses[i]? = some s) :
    ∃ s2 : Synapse,
      (mkDendriteResponseEvent responses uids timeout).2[i]? = some s2 ∧
      s2.completion = s.completion ∧
      s2.dendrite.process_time = s.dendrite.process_time ∧
      s2.dendrite.status_message = s.dendrite.status_message ∧
      s2.dendrite.status_code =
        (if s.completion = "" ∧ s.dendrite.status_code = 200 then 204
         else s.dendrite.status_code) :=
  ⟨classifySynapse s, mk_responses_getElem responses uids timeout i s hi,
    classifySynapse_completion s, classifySynapse_process_time s,
    classifySynapse_status_message s, classifySynapse_status_code s⟩

/-- Concrete instance of `aggregation_mutation_amended`. -/
theorem aggregation_mutation_amended_witness :
    ([⟨"", ⟨some 1, 200, "OK"⟩⟩] : List Synapse)[0]?
        = some ⟨"", ⟨some 1, 200, "OK"⟩⟩ ∧
    (∃ s2 : Synapse,
      (mkDendriteResponseEvent [⟨"", ⟨some 1, 200, "OK"⟩⟩] [0] 1).2[0]? = some s2 ∧
      s2.completion = "" ∧
      s2.dendrite.process_time = some 1 ∧
      s2.dendrite.status_message = "OK" ∧
      s2.dendrite.status_code =
        (if ("" : String) = "" ∧ (200 : Int) = 200 then 204 else 200)) :=
  ⟨rfl,
    aggregation_mutation_amended [⟨"", ⟨some 1, 200, "OK"⟩⟩] [0] 1 0
      ⟨"", ⟨some 1, 200, "OK"⟩⟩ rfl⟩

/-- Claim C8: constructing the event twice in succession from the same
batch (the second construction seeing the batch as the first left it)
yields the same event: the in-place reclassification is idempotent and the
aggregation has no other state, so both constructions produce identical
completions, timings, status messages and status codes. -/
theorem construction_idempotent (responses : List Synapse) (uids : List Int)
    (timeout : ℚ) :
    (mkDendriteResponseEvent
        (mkDendriteResponseEvent responses uids timeout).2 uids timeout).1
      = (mkDendriteResponseEvent responses uids timeout).1 := by
  have hmap : (responses.map classifySynapse).map classifySynapse
      = responses.map classifySynapse := by
    induction responses with
    | nil => rfl
    | cons a l ih => simp only [List.map_cons, classifySynapse_idem, ih]
  simp only [mkDendriteResponseEvent, hmap]

theorem vLLMQuery_messages_length (st : VLLMState)
    (message role response : String) (elapsed : ℚ) :
    (vLLMQuery st message role response elapsed).messages.length
      = st.messages.length + 2 := by
  simp [vLLMQuery]

theorem vLLMQuery_times_length (st : VLLMState)
    (message role response : String) (elapsed : ℚ) :
    (vLLMQuery st message role response elapsed).times.length
      = st.times.length + 2 := by
  simp [vLLMQuery]

theorem vLLMRun_foldl_lengths (st : VLLMState)
    (calls : List (String × String × String × ℚ)) :
    (calls.foldl (fun st c => vLLMQuery st c.1 c.2.1 c.2.2.1 c.2.2.2)
        st).messages.length = st.messages.length + 2 * calls.length ∧
    (calls.foldl (fun st c => vLLMQuery st c.1 c.2.1 c.2.2.1 c.2.2.2)
        st).times.length = st.times.length + 2 * calls.length := by
  induction calls generalizing st with
  | nil => simp
  | cons c cs ih =>
    rcases ih (vLLMQuery st c.1 c.2.1 c.2.2.1 c.2.2.2) with ⟨ihm, iht⟩
    constructor
    · rw [List.foldl_cons, ihm, vLLMQuery_messages_length]
      simp only [List.length_cons]
      ring
    · rw [List.foldl_cons, iht, vLLMQuery_times_length]
      simp only [List.length_cons]
      ring

/-- Claim C10: a `vLLM_LLM` instance starts with one entry in `messages`
(the system prompt) and one entry in `times` (the 0), and each call to
`query` appends exactly two elements to each list (the incoming message
and the assistant response to `messages`; a 0 and the elapsed time to
`times`), so after any sequence of n queries both lists have length
1 + 2n and in particular always have equal lengths. -/
theorem vllm_messages_times_lengths (system_prompt : String)
    (calls : List (String × String × String × ℚ)) :
    (vLLMInit system_prompt).messages.length = 1 ∧
    (vLLMInit system_prompt).times.length = 1 ∧
    (∀ (st : VLLMState) (message role response : String) (elapsed : ℚ),
      (vLLMQuery st message role response elapsed).messages.length
          = st.messages.length + 2 ∧
      (vLLMQuery st message role response elapsed).times.length
          = st.times.length + 2) ∧
    (vLLMRun system_prompt calls).messages.length = 1 + 2 * calls.length ∧
    (vLLMRun system_prompt calls).times.length = 1 + 2 * calls.length := by
  refine ⟨rfl, rfl,
    fun st message role response elapsed =>
      ⟨vLLMQuery_messages_length st message role response elapsed,
        vLLMQuery_times_length st message role response elapsed⟩, ?_, ?_⟩
  · rw [vLLMRun, (vLLMRun_foldl_lengths (vLLMInit system_prompt) calls).1]
    rfl
  · rw [vLLMRun, (vLLMRun_foldl_lengths (vLLMInit system_prompt) calls).2]
    rfl
